import Mathlib

/-!
Verification development for the A1 agent exploit analysis and valuation
pipeline.  The TypeScript sources are embedded shallowly: JavaScript numbers
are modelled as exact rationals, JavaScript toFixed rounding as `roundTo`,
thrown exceptions as `Except String`, and the regular-expression match
counting of the vulnerability scanner as an explicit record of per-signature
match counts (the regex engine itself is the abstracted boundary; every
downstream computation is translated from the source).
-/

/-- Number.prototype.toFixed(n) followed by Number(...): round a rational to
n decimal digits (half rounds up). -/
def roundTo (n : Nat) (x : ℚ) : ℚ := (⌊x * 10 ^ n + 1 / 2⌋ : ℚ) / 10 ^ n

/-- JavaScript truthiness of an optional string: undefined and the empty
string are falsy. -/
def strTruthy : Option String → Bool
  | none => false
  | some s => !s.isEmpty

/-- JavaScript truthiness of an optional natural number: undefined and 0 are
falsy. -/
def natTruthy : Option Nat → Bool
  | none => false
  | some n => decide (n ≠ 0)

/-! ## Vulnerability scanner (src/server/mcp/tools/concrete-execution.ts) -/

/-- The seven vulnerability categories of the `patterns` table in
`analyzeForVulnerabilities`, in the declaration order of the object. -/
inductive VulnKind
  | reentrancy
  | integerOverflow
  | accessControl
  | delegateCall
  | uncheckedCall
  | priceOracle
  | flashLoan
deriving DecidableEq

/-- Severity vocabulary used by the scanner and the strategy generators. -/
inductive Severity
  | low
  | medium
  | high
  | critical
deriving DecidableEq

/-- Abstraction of a source text: the number of regex matches of each of the
seven vulnerability signatures of `analyzeForVulnerabilities`, and of each of
the six protective signatures of `calculateConfidence`.  A count of 0 models
`String.prototype.match` returning null. -/
structure SourceCounts where
  reentrancyMatches : Nat
  integerOverflowMatches : Nat
  accessControlMatches : Nat
  delegateCallMatches : Nat
  uncheckedCallMatches : Nat
  priceOracleMatches : Nat
  flashLoanMatches : Nat
  requireCount : Nat
  assertCount : Nat
  revertCount : Nat
  nonReentrantCount : Nat
  safeMathCount : Nat
  openZeppelinCount : Nat
deriving DecidableEq

def matchCountOf (s : SourceCounts) : VulnKind → Nat
  | .reentrancy => s.reentrancyMatches
  | .integerOverflow => s.integerOverflowMatches
  | .accessControl => s.accessControlMatches
  | .delegateCall => s.delegateCallMatches
  | .uncheckedCall => s.uncheckedCallMatches
  | .priceOracle => s.priceOracleMatches
  | .flashLoan => s.flashLoanMatches

/-- The reduce over `protectivePatterns` in `calculateConfidence`: total count
of protective signature matches in the source text. -/
def protectionCount (s : SourceCounts) : Nat :=
  s.requireCount + s.assertCount + s.revertCount +
    s.nonReentrantCount + s.safeMathCount + s.openZeppelinCount

/-- The `typeMultipliers` table of `calculateConfidence`. -/
def typeMultiplier : VulnKind → ℚ
  | .reentrancy => 1.5
  | .delegateCall => 1.8
  | .accessControl => 1.2
  | .integerOverflow => 1.1
  | .priceOracle => 1.4
  | .uncheckedCall => 1.0
  | .flashLoan => 1.3

/-- Severity assigned by the `patterns` table of `analyzeForVulnerabilities`. -/
def patternSeverity : VulnKind → Severity
  | .reentrancy => .critical
  | .integerOverflow => .high
  | .accessControl => .high
  | .delegateCall => .critical
  | .uncheckedCall => .medium
  | .priceOracle => .high
  | .flashLoan => .medium

/-- Description assigned by the `patterns` table of `analyzeForVulnerabilities`. -/
def patternDescription : VulnKind → String
  | .reentrancy => "Potential reentrancy vulnerability detected"
  | .integerOverflow => "Potential integer overflow/underflow vulnerability"
  | .accessControl => "Access control bypass potential"
  | .delegateCall => "Dangerous delegatecall usage detected"
  | .uncheckedCall => "Unchecked external call detected"
  | .priceOracle => "Price oracle manipulation vulnerability"
  | .flashLoan => "Flash loan exploit pattern detected"

/-- Function `calculateConfidence(type, matches, sourceCode)` from
concrete-execution.ts, with the protective-pattern recount of the source text
passed as `protection`. -/
def calculateConfidence (vulnType : VulnKind) (matchCount : Nat) (protection : Nat) : ℚ :=
  let base : ℚ := 30 * typeMultiplier vulnType
  let base := base + min ((matchCount : ℚ) * 10) 30
  let base := base - min ((protection : ℚ) * 5) 20
  max (min base 95) 5

/-- One entry of the `vulnerabilities` array built by
`analyzeForVulnerabilities`. -/
structure Finding where
  vulnType : VulnKind
  severity : Severity
  description : String
  matchCount : Nat
  confidence : ℚ
deriving DecidableEq

/-- Iteration order of `Object.entries(patterns)` in
`analyzeForVulnerabilities`: declaration order of the seven categories. -/
def kindOrder : List VulnKind :=
  [.reentrancy, .integerOverflow, .accessControl, .delegateCall,
   .uncheckedCall, .priceOracle, .flashLoan]

/-- Function `analyzeForVulnerabilities`: for each category in declaration order, a
Finding is pushed exactly when the signature matched at least once. -/
def analyzeForVulnerabilities (s : SourceCounts) : List Finding :=
  kindOrder.filterMap (fun k =>
    if matchCountOf s k ≠ 0 then
      some { vulnType := k
             severity := patternSeverity k
             description := patternDescription k
             matchCount := matchCountOf s k
             confidence := calculateConfidence k (matchCountOf s k) (protectionCount s) }
    else none)

/-! ## Strategy generation and selection -/

/-- The part of a generated exploit strategy that the pipeline consumes
downstream (type, severity, adjusted confidence, description, profit tier).
The proof-of-concept Solidity templates and the step lists of the generators
are plain literals not read by any later computation and are omitted here. -/
structure Strategy where
  stratType : VulnKind
  severity : Severity
  confidence : ℚ
  description : String
  estimatedProfit : String
deriving DecidableEq

/-- Function `generateExploitStrategy`: dispatch over the finding kind to the seven
generator methods.  Each generator copies the finding confidence, except
access control (times 0.8), integer overflow (times 0.7) and unchecked call
(times 0.6).  The dispatch table covers all seven kinds, so the null
early-return of the source is unreachable here. -/
def generateExploitStrategy (v : Finding) : Option Strategy :=
  match v.vulnType with
  | .reentrancy => some
      { stratType := .reentrancy, severity := .critical, confidence := v.confidence
        description := "Reentrancy exploit targeting withdraw functions"
        estimatedProfit := "High" }
  | .delegateCall => some
      { stratType := .delegateCall, severity := .critical, confidence := v.confidence
        description := "Delegatecall exploit to overwrite storage and gain control"
        estimatedProfit := "Very High" }
  | .accessControl => some
      { stratType := .accessControl, severity := .high, confidence := v.confidence * 0.8
        description := "Access control bypass attempt"
        estimatedProfit := "Medium" }
  | .integerOverflow => some
      { stratType := .integerOverflow, severity := .high, confidence := v.confidence * 0.7
        description := "Integer overflow/underflow exploit"
        estimatedProfit := "Medium" }
  | .priceOracle => some
      { stratType := .priceOracle, severity := .high, confidence := v.confidence
        description := "Price oracle manipulation using flash loans"
        estimatedProfit := "Very High" }
  | .uncheckedCall => some
      { stratType := .uncheckedCall, severity := .medium, confidence := v.confidence * 0.6
        description := "Unchecked external call exploitation"
        estimatedProfit := "Low to Medium" }
  | .flashLoan => some
      { stratType := .flashLoan, severity := .medium, confidence := v.confidence
        description := "Flash loan arbitrage/manipulation exploit"
        estimatedProfit := "High" }

/-- The `exploitStrategies` array of `ConcreteExecution.execute`: one strategy
per finding, generated in finding order, null results skipped. -/
def exploitStrategies (s : SourceCounts) : List Strategy :=
  (analyzeForVulnerabilities s).filterMap generateExploitStrategy

/-- The reduce `exploitStrategies.reduce((best, current) => current.confidence >
best.confidence ? current : best)`: left fold keeping the earlier element on
ties. -/
def reduceBest (best : Strategy) : List Strategy → Strategy
  | [] => best
  | current :: rest =>
      reduceBest (if best.confidence < current.confidence then current else best) rest

/-- The strategy selection of `ConcreteExecution.execute`; `none` models the
TypeError the reduce would raise on an empty array (the source guards against
that case before reducing). -/
def selectBestStrategy : List Strategy → Option Strategy
  | [] => none
  | first :: rest => some (reduceBest first rest)

/-- Position of a category in the declaration order of the `patterns` table. -/
def kindIdx : VulnKind → Nat
  | .reentrancy => 0
  | .integerOverflow => 1
  | .accessControl => 2
  | .delegateCall => 3
  | .uncheckedCall => 4
  | .priceOracle => 5
  | .flashLoan => 6

/-! ## Forge execution harness (ForgeService in the services layer) -/

/-- One entry of the `extractedTokens` array synthesized by
`simulateExploitTest` (address, numeric amount rendered to a string in the
source, stablecoin symbol). -/
structure SimToken where
  address : String
  amount : ℚ
  symbol : Option String
deriving DecidableEq

/-- The result object shape shared by `parseForgeOutput`,
`simulateExploitTest` and the catch branch of `runForgeTest`.  Fields that one
of the paths leaves absent on the JavaScript object are Options, with `none`
for an absent field. -/
structure ForgeResult where
  success : Bool
  gasUsed : ℤ
  profit : ℚ
  extractedTokens : List SimToken
  trace : List String
  errorMessage : Option String
  fullOutput : Option String
  errors : Option String
  simulated : Option Bool
  simulationNote : Option String
deriving DecidableEq

/-- The three `Math.random()` draws consumed by `simulateExploitTest`, in
call order: the success threshold draw, the gas draw and the profit draw. -/
structure RandomDraws where
  successRoll : ℚ
  gasRoll : ℚ
  profitRoll : ℚ
deriving DecidableEq

/-- Function `simulateExploitTest` from the Forge service: the fallback taken whenever
Forge is not available.  `params.strategy.confidence || 50` reads the
strategy confidence with 0 falling back to 50. -/
def simulateExploitTest (strategy : Strategy) (draws : RandomDraws) : ForgeResult :=
  let confidence := if strategy.confidence = 0 then 50 else strategy.confidence
  let success : Bool := decide (60 + draws.successRoll * 20 < confidence)
  let gasUsed : ℤ := 100000 + ⌊draws.gasRoll * 200000⌋
  let profit : ℚ := if success then (⌊draws.profitRoll * 1000000⌋ : ℚ) + 100000 else 0
  let extractedTokens : List SimToken :=
    if success then
      [ { address := "0xA0b86a33E6441E1c4B37d8c5C7e48a16c1111111"
          amount := profit * 0.6, symbol := some "USDC" }
      , { address := "0xdAC17F958D2ee523a2206206994597C13D831ec7"
          amount := profit * 0.4, symbol := some "USDT" } ]
    else []
  { success := success
    gasUsed := gasUsed
    profit := profit
    extractedTokens := extractedTokens
    trace :=
      if success then
        [ "├─ [0] ExploitTest::testExploit()"
        , "│  ├─ [21000] TARGET::deposit\x7bvalue: 1000000000000000000\x7d()"
        , "│  │  └─ ← ()"
        , "│  ├─ [31000] TARGET::withdraw(1000000000000000000)"
        , "│  │  └─ ← ()"
        , "│  └─ ← ()" ]
      else
        [ "├─ [0] ExploitTest::testExploit()"
        , "│  ├─ [21000] TARGET::deposit\x7bvalue: 1000000000000000000\x7d()"
        , "│  │  └─ ← revert"
        , "│  └─ ← revert" ]
    errorMessage := if success then none else some "Exploit failed during execution"
    fullOutput := none
    errors := none
    simulated := none
    simulationNote := some "This is a simulated result - Forge not available" }

/-- JavaScript `stdout.includes(pat)` for a nonempty pattern. -/
def stringHas (s pat : String) : Bool := decide (2 ≤ (s.splitOn pat).length)

/-- Function `parseForgeOutput(stdout, stderr)` from the Forge service.  The numeric
regex extractions (`gas: (number)`, `Profit: (number)`) and the trace line
filter are abstracted as the inputs `gasMatch`, `profitMatch` and
`traceLines`; the pass or fail inclusion check and the result record shape are
translated from the source. -/
def parseForgeOutput (stdout stderr : String) (gasMatch profitMatch : Option ℤ)
    (traceLines : List String) : ForgeResult :=
  { success := stringHas stdout "[PASS]" && !stringHas stdout "[FAIL]"
    gasUsed := gasMatch.getD 0
    profit := (profitMatch.getD 0 : ℤ)
    extractedTokens := []
    trace := traceLines
    errorMessage := none
    fullOutput := some stdout
    errors := some stderr
    simulated := none
    simulationNote := none }

/-! ## ConcreteExecution.execute and the analysis pipeline
(src/server/mcp/server.ts) -/

/-- The three return shapes of `ConcreteExecution.execute`: the two early
returns (no vulnerabilities; vulnerabilities but no strategies) both carry
`exploitFound: false`; the full path carries `exploitFound:
executionResult.success` along with the selected strategy and the execution
result. -/
inductive ExploitOutcome
  | noVulnerabilities
  | noStrategies (vulnerabilities : List Finding)
  | executed (bestStrategy : Strategy) (result : ForgeResult)
      (vulnerabilities : List Finding)
deriving DecidableEq

/-- The `exploitFound` field of each return shape of
`ConcreteExecution.execute`. -/
def exploitFound : ExploitOutcome → Bool
  | .noVulnerabilities => false
  | .noStrategies _ => false
  | .executed _ result _ => result.success

/-- Method `ConcreteExecution.execute` over an already sanitized source text
(abstracted to its signature counts).  `runStrategy` is
`executeExploitStrategy`, which catches every Forge error and returns a
`success: false` record, hence is total. -/
def concreteExecutionRun (s : SourceCounts) (runStrategy : Strategy → ForgeResult) :
    ExploitOutcome :=
  let vulnerabilities := analyzeForVulnerabilities s
  if vulnerabilities.length = 0 then
    .noVulnerabilities
  else
    match vulnerabilities.filterMap generateExploitStrategy with
    | [] => .noStrategies vulnerabilities
    | first :: rest =>
        let bestStrategy := reduceBest first rest
        .executed bestStrategy (runStrategy bestStrategy) vulnerabilities

/-- External collaborators of `executeAnalysisPipeline`, each modelled as the
value or exception its awaited call produces: the source fetch, constructor
parameter and state reader tools, the sanitizer (whose sanitized output text
is abstracted to its signature counts), the Forge run for a chosen strategy,
and the revenue normalizer tool. -/
structure PipelineEnv where
  fetchSourceCode : Except String String
  fetchConstructorParams : Except String Unit
  readContractState : Except String Unit
  sanitize : String → Except String SourceCounts
  runStrategy : Strategy → ForgeResult
  revenue : List SimToken → Except String ℚ

/-- The record persisted by `storage.createExploitDiscovery` in
`executeAnalysisPipeline` (session and address bookkeeping fields omitted;
`valueAtRisk` is the totalValueUSD reported by the revenue tool). -/
structure StoredDiscovery where
  exploitType : VulnKind
  severity : Severity
  confidence : ℚ
  valueAtRisk : ℚ
  description : String
  validated : Bool
deriving DecidableEq

/-- Steps 1 to 5 of `executeAnalysisPipeline`: the four data gathering tools
followed by `concrete_execution`; any rejected await propagates. -/
def pipelineThroughExecution (env : PipelineEnv) : Except String ExploitOutcome :=
  match env.fetchSourceCode with
  | .error e => .error e
  | .ok sourceCode =>
    match env.fetchConstructorParams with
    | .error e => .error e
    | .ok _ =>
      match env.readContractState with
      | .error e => .error e
      | .ok _ =>
        match env.sanitize sourceCode with
        | .error e => .error e
        | .ok counts => .ok (concreteExecutionRun counts env.runStrategy)

/-- Function `executeAnalysisPipeline`: after step 5, a discovery is stored exactly
when `exploitResult.exploitFound` is true, with the revenue tool consulted
first (its rejection propagates and fails the session). -/
def executeAnalysisPipeline (env : PipelineEnv) : Except String (Option StoredDiscovery) :=
  match pipelineThroughExecution env with
  | .error e => .error e
  | .ok (.executed bestStrategy result _vulns) =>
    if result.success then
      match env.revenue result.extractedTokens with
      | .error e => .error e
      | .ok totalValueUSD =>
        .ok (some { exploitType := bestStrategy.stratType
                    severity := bestStrategy.severity
                    confidence := bestStrategy.confidence
                    valueAtRisk := totalValueUSD
                    description := bestStrategy.description
                    validated := true })
    else .ok none
  | .ok _ => .ok none

inductive SessionStatus
  | pending
  | running
  | completed
  | failed
deriving DecidableEq

/-- Final session state and the discovery records persisted for it. -/
structure SessionOutcome where
  status : SessionStatus
  discoveries : List StoredDiscovery
deriving DecidableEq

/-- Method `McpServer.startAnalysis`: the session ends `completed` when the pipeline
resolves (whether or not an exploit was found) and `failed` when it rejects. -/
def startAnalysis (env : PipelineEnv) : SessionOutcome :=
  match executeAnalysisPipeline env with
  | .ok (some d) => { status := .completed, discoveries := [d] }
  | .ok none => { status := .completed, discoveries := [] }
  | .error _ => { status := .failed, discoveries := [] }

/-- The outcome of the execution stage, when the pipeline reaches it. -/
def pipelineExecutionStage (env : PipelineEnv) : Option ExploitOutcome :=
  (pipelineThroughExecution env).toOption

/-! ## Revenue normalizer (the revenue_normalizer tool) -/

/-- An `extractedTokens` entry of the revenue normalizer input schema.  The
raw amount string holds an integer token amount. -/
structure ExtractedToken where
  address : String
  amount : ℤ
  symbol : Option String
  decimals : Option Nat
deriving DecidableEq

/-- Result shape of `priceOracle.getTokenMetadata`. -/
structure TokenMetadata where
  symbol : Option String
  decimals : Option Nat
deriving DecidableEq

/-- Result shape of `priceOracle.getTokenPrice`. -/
structure TokenPriceData where
  priceUSD : ℚ
  priceETH : ℚ
  liquidityUSD : ℚ
  priceImpact : ℚ
  sources : List String
  confidence : ℚ
deriving DecidableEq

/-- The price oracle service consulted per token, as the value or exception
each awaited call produces for a given token address. -/
structure PriceOracle where
  getTokenMetadata : String → Except String TokenMetadata
  getTokenPrice : String → Except String TokenPriceData

/-- One entry of the `normalizedTokens` array.  The catch branch spreads the
input token and adds only zero values, an error message and liquidity
"unknown"; fields it leaves absent are `none`. -/
structure NormalizedToken where
  address : String
  symbol : Option String
  decimals : Option Nat
  amount : ℤ
  amountDecimal : Option ℚ
  priceUSD : ℚ
  priceETH : ℚ
  valueUSD : ℚ
  valueETH : ℚ
  liquidity : String
  liquidityUSD : Option ℚ
  priceImpact : Option ℚ
  sources : Option (List String)
  confidence : Option ℚ
  error : Option String
deriving DecidableEq

/-- Function `assessLiquidity`: the threshold ladder of the source. -/
def assessLiquidity (liquidityUSD : ℚ) : String :=
  if 1000000 < liquidityUSD then "high"
  else if 100000 < liquidityUSD then "medium"
  else if 10000 < liquidityUSD then "low"
  else "very-low"

/-- Function `normalizeToken`: resolve metadata when symbol or decimals is falsy,
convert the raw amount with `ethers.formatUnits`, price the token, and round
each reported figure. -/
def normalizeToken (oracle : PriceOracle) (token : ExtractedToken) :
    Except String NormalizedToken :=
  match (if !strTruthy token.symbol || !natTruthy token.decimals then
           oracle.getTokenMetadata token.address
         else
           Except.ok { symbol := token.symbol, decimals := token.decimals }) with
  | .error e => .error e
  | .ok metadata =>
    let decimals : Nat := if natTruthy metadata.decimals then metadata.decimals.getD 18 else 18
    let amountDecimal : ℚ := (token.amount : ℚ) / 10 ^ decimals
    match oracle.getTokenPrice token.address with
    | .error e => .error e
    | .ok priceData =>
      let valueUSD := amountDecimal * priceData.priceUSD
      let valueETH := amountDecimal * priceData.priceETH
      .ok { address := token.address
            symbol := metadata.symbol
            decimals := some decimals
            amount := token.amount
            amountDecimal := some (roundTo 6 amountDecimal)
            priceUSD := roundTo 6 priceData.priceUSD
            priceETH := roundTo 10 priceData.priceETH
            valueUSD := roundTo 2 valueUSD
            valueETH := roundTo 6 valueETH
            liquidity := assessLiquidity priceData.liquidityUSD
            liquidityUSD := some priceData.liquidityUSD
            priceImpact := some priceData.priceImpact
            sources := some priceData.sources
            confidence := some priceData.confidence
            error := none }

/-- The catch branch of the per-token loop of `RevenueNormalizer.execute`. -/
def errorTokenEntry (token : ExtractedToken) (msg : String) : NormalizedToken :=
  { address := token.address
    symbol := token.symbol
    decimals := token.decimals
    amount := token.amount
    amountDecimal := none
    priceUSD := 0
    priceETH := 0
    valueUSD := 0
    valueETH := 0
    liquidity := "unknown"
    liquidityUSD := none
    priceImpact := none
    sources := none
    confidence := none
    error := some msg }

/-- The per-token loop of `RevenueNormalizer.execute`: push each normalized
token (or its error entry) in input order and accumulate the USD and ETH
totals over the successful entries. -/
def normalizeTokenLoop (oracle : PriceOracle) :
    List ExtractedToken → List NormalizedToken × ℚ × ℚ
  | [] => ([], 0, 0)
  | token :: rest =>
    match normalizeToken oracle token with
    | .ok nt =>
      let (l, totalUSD, totalETH) := normalizeTokenLoop oracle rest
      (nt :: l, nt.valueUSD + totalUSD, nt.valueETH + totalETH)
    | .error e =>
      let (l, totalUSD, totalETH) := normalizeTokenLoop oracle rest
      (errorTokenEntry token e :: l, totalUSD, totalETH)

/-- The object returned by `calculateGasCosts`. -/
structure GasCosts where
  gasUsed : Nat
  gasPrice : ℚ
  costETH : ℚ
  costUSD : ℚ
  estimated : Bool
deriving DecidableEq

/-- Function `calculateGasCosts(gasUsed, gasPrice, nativeTokenPrice)`: zero estimated
cost when gas used is falsy (absent or 0), the gas price string is absent or
the native price is falsy (0); otherwise the gwei price is scaled to wei and
the rounded ETH and USD costs are reported. -/
def calculateGasCosts (gasUsed : Option Nat) (gasPrice : Option ℚ)
    (nativeTokenPrice : ℚ) : GasCosts :=
  if !natTruthy gasUsed || gasPrice.isNone || nativeTokenPrice = 0 then
    { gasUsed := gasUsed.getD 0, gasPrice := gasPrice.getD 0
      costETH := 0, costUSD := 0, estimated := true }
  else
    let g : ℚ := (gasUsed.getD 0 : Nat)
    let gasPriceWei : ℚ := gasPrice.getD 0 * 10 ^ 9
    let gasCostWei : ℚ := g * gasPriceWei
    let gasCostETH : ℚ := gasCostWei / 10 ^ 18
    let gasCostUSD : ℚ := gasCostETH * nativeTokenPrice
    { gasUsed := gasUsed.getD 0, gasPrice := gasPrice.getD 0
      costETH := roundTo 6 gasCostETH, costUSD := roundTo 2 gasCostUSD
      estimated := false }

/-- JavaScript test `t.priceImpact && t.priceImpact > 0.05` on an optional
impact figure. -/
def impactAboveThreshold : Option ℚ → Bool
  | none => false
  | some i => decide ((0.05 : ℚ) < i)

/-- The object built by `getMarketContext` (timestamp omitted). -/
structure MarketContext where
  totalLiquidity : ℚ
  averagePriceImpact : ℚ
  highLiquidityCount : Nat
  riskTokens : Nat
deriving DecidableEq

def getMarketContext (tokens : List NormalizedToken) : MarketContext :=
  { totalLiquidity := (tokens.map (fun t => t.liquidityUSD.getD 0)).sum
    averagePriceImpact :=
      if 0 < tokens.length then
        (tokens.map (fun t => t.priceImpact.getD 0)).sum / (tokens.length : ℚ)
      else 0
    highLiquidityCount := (tokens.filter (fun t => t.liquidity = "high")).length
    riskTokens :=
      (tokens.filter
        (fun t => t.liquidity = "very-low" || impactAboveThreshold t.priceImpact)).length }

/-- Function `assessRiskLevel(tokens, netProfitUSD)`: the composite risk score and its
mapping to a level.  The third filter of the source is
`t.error || !t.symbol`, JavaScript truthiness included. -/
def assessRiskLevel (tokens : List NormalizedToken) (netProfitUSD : ℚ) : String :=
  let lowLiquidityTokens :=
    (tokens.filter (fun t => t.liquidity = "very-low" || t.liquidity = "low")).length
  let highImpactTokens :=
    (tokens.filter (fun t => impactAboveThreshold t.priceImpact)).length
  let unknownTokens :=
    (tokens.filter (fun t => strTruthy t.error || !strTruthy t.symbol)).length
  let riskScore := lowLiquidityTokens * 2 + highImpactTokens * 3 + unknownTokens * 4
  let riskScore := riskScore + (if netProfitUSD < 1000 then 2 else 0)
  let riskScore := riskScore + (if netProfitUSD < 100 then 3 else 0)
  if 8 ≤ riskScore then "very-high"
  else if 5 ≤ riskScore then "high"
  else if 2 ≤ riskScore then "medium"
  else "low"

/-- The `summary` object of the revenue normalizer output. -/
structure RevenueSummary where
  totalTokens : Nat
  successfulNormalizations : Nat
  highLiquidityTokens : Nat
  riskLevel : String
deriving DecidableEq

/-- The object returned by `RevenueNormalizer.execute` (timestamp and echoed
block number omitted). -/
structure RevenueOutput where
  chainId : Nat
  nativeTokenPrice : ℚ
  extractedTokens : List NormalizedToken
  totalValueUSD : ℚ
  totalValueETH : ℚ
  gasCosts : GasCosts
  netProfitUSD : ℚ
  netProfitETH : ℚ
  isProfitable : Bool
  profitabilityRatio : ℚ
  marketData : MarketContext
  summary : RevenueSummary
deriving DecidableEq

/-- Method `RevenueNormalizer.execute`: fetch the native price (its rejection
propagates), compute gas costs, normalize every token with per-token error
isolation, net the totals and report each figure rounded for output.
`isProfitable` and the risk assessment read the unrounded net profit. -/
def revenueNormalizerExecute (oracle : PriceOracle) (chainId : Nat)
    (extractedTokens : List ExtractedToken) (nativeTokenPrice : Except String ℚ)
    (gasUsed : Option Nat) (gasPrice : Option ℚ) : Except String RevenueOutput :=
  match nativeTokenPrice with
  | .error e => .error e
  | .ok nativePrice =>
    let gasCosts := calculateGasCosts gasUsed gasPrice nativePrice
    let (normalizedTokens, totalValueUSD, totalValueETH) :=
      normalizeTokenLoop oracle extractedTokens
    let netProfitUSD := totalValueUSD - gasCosts.costUSD
    let netProfitETH := totalValueETH - gasCosts.costETH
    .ok { chainId := chainId
          nativeTokenPrice := nativePrice
          extractedTokens := normalizedTokens
          totalValueUSD := roundTo 2 totalValueUSD
          totalValueETH := roundTo 6 totalValueETH
          gasCosts := gasCosts
          netProfitUSD := roundTo 2 netProfitUSD
          netProfitETH := roundTo 6 netProfitETH
          isProfitable := decide (0 < netProfitUSD)
          profitabilityRatio :=
            if 0 < totalValueUSD then roundTo 4 (netProfitUSD / totalValueUSD) else 0
          marketData := getMarketContext normalizedTokens
          summary := { totalTokens := extractedTokens.length
                       successfulNormalizations :=
                         (normalizedTokens.filter (fun t => !strTruthy t.error)).length
                       highLiquidityTokens :=
                         (normalizedTokens.filter (fun t => t.liquidity = "high")).length
                       riskLevel := assessRiskLevel normalizedTokens netProfitUSD } }

/-! ## Helper lemmas -/

theorem calculateConfidence_le_95 (k : VulnKind) (m p : Nat) :
    calculateConfidence k m p ≤ 95 := by
  simp only [calculateConfidence]
  exact max_le (min_le_right _ _) (by norm_num)

theorem five_le_calculateConfidence (k : VulnKind) (m p : Nat) :
    5 ≤ calculateConfidence k m p := by
  simp only [calculateConfidence]
  exact le_max_right _ _

theorem one_le_typeMultiplier (k : VulnKind) : 1 ≤ typeMultiplier k := by
  cases k <;> norm_num [typeMultiplier]

theorem twenty_le_calculateConfidence (k : VulnKind) (m p : Nat) (hm : 1 ≤ m) :
    20 ≤ calculateConfidence k m p := by
  have hmult := one_le_typeMultiplier k
  have h10 : (10 : ℚ) ≤ min ((m : ℚ) * 10) 30 := by
    refine le_min ?_ (by norm_num)
    have hm1 : (1 : ℚ) ≤ (m : ℚ) := by exact_mod_cast hm
    nlinarith
  have h20 : min ((p : ℚ) * 5) 20 ≤ 20 := min_le_right _ _
  simp only [calculateConfidence]
  refine le_trans (le_min (by nlinarith) (by norm_num)) (le_max_left _ _)

theorem reduceBest_mem (b : Strategy) (l : List Strategy) : reduceBest b l ∈ b :: l := by
  induction l generalizing b with
  | nil => simp [reduceBest]
  | cons c r ih =>
    rw [reduceBest]
    have h := ih (if b.confidence < c.confidence then c else b)
    rw [List.mem_cons] at h
    rcases h with h | h
    · rw [h]
      split <;> simp
    · simp [h]

theorem le_reduceBest (b : Strategy) (l : List Strategy) :
    ∀ x ∈ b :: l, x.confidence ≤ (reduceBest b l).confidence := by
  induction l generalizing b with
  | nil =>
    intro x hx
    rw [List.mem_singleton] at hx
    subst hx
    simp [reduceBest]
  | cons c r ih =>
    intro x hx
    rw [reduceBest]
    have hb : b.confidence ≤ (if b.confidence < c.confidence then c else b).confidence := by
      split <;> [linarith; exact le_rfl]
    have hc : c.confidence ≤ (if b.confidence < c.confidence then c else b).confidence := by
      split <;> [exact le_rfl; linarith]
    rcases List.mem_cons.mp hx with rfl | hx
    · exact le_trans hb (ih _ _ (List.mem_cons_self _ _))
    rcases List.mem_cons.mp hx with rfl | hx
    · exact le_trans hc (ih _ _ (List.mem_cons_self _ _))
    · exact ih _ x (List.mem_cons_of_mem _ hx)

theorem reduceBest_tiebreak (b : Strategy) (l : List Strategy)
    (hp : (b :: l).Pairwise (fun a c => kindIdx a.stratType < kindIdx c.stratType)) :
    ∀ t ∈ b :: l, t.confidence = (reduceBest b l).confidence →
      kindIdx (reduceBest b l).stratType ≤ kindIdx t.stratType := by
  induction l generalizing b with
  | nil =>
    intro t ht _
    rw [List.mem_singleton] at ht
    subst ht
    simp [reduceBest]
  | cons c r ih =>
    intro t ht heq
    rw [reduceBest] at heq ⊢
    rcases List.pairwise_cons.mp hp with ⟨hbAll, hcr⟩
    rcases List.pairwise_cons.mp hcr with ⟨hcAll, hr⟩
    by_cases hbc : b.confidence < c.confidence
    · rw [if_pos hbc] at heq ⊢
      rcases List.mem_cons.mp ht with rfl | ht
      · exfalso
        have h1 : c.confidence ≤ (reduceBest c r).confidence :=
          le_reduceBest c r c (List.mem_cons_self _ _)
        linarith [heq]
      · exact ih c hcr t ht heq
    · rw [if_neg hbc] at heq ⊢
      push_neg at hbc
      have hp' : (b :: r).Pairwise (fun a c => kindIdx a.stratType < kindIdx c.stratType) :=
        List.pairwise_cons.mpr
          ⟨fun x hx => hbAll x (List.mem_cons_of_mem _ hx), hr⟩
      rcases List.mem_cons.mp ht with rfl | ht
      · exact ih _ hp' _ (List.mem_cons_self _ _) heq
      rcases List.mem_cons.mp ht with rfl | ht
      · have hbsel : b.confidence ≤ (reduceBest b r).confidence :=
          le_reduceBest b r b (List.mem_cons_self _ _)
        have hbeq : b.confidence = (reduceBest b r).confidence :=
          le_antisymm hbsel (by rw [← heq]; exact hbc)
        have h := ih b hp' b (List.mem_cons_self _ _) hbeq
        exact le_trans h (le_of_lt (hbAll _ (List.mem_cons_self _ _)))
      · exact ih b hp' t (List.mem_cons_of_mem _ ht) heq

theorem pairwise_filterMap_lt {α β : Type} (F : α → Option β) (ta : α → Nat) (tb : β → Nat)
    (hF : ∀ a b, F a = some b → tb b = ta a) :
    ∀ l : List α, l.Pairwise (fun x y => ta x < ta y) →
      (l.filterMap F).Pairwise (fun x y => tb x < tb y) := by
  intro l hl
  induction l with
  | nil => simp
  | cons a l ih =>
    rw [List.filterMap_cons]
    rcases List.pairwise_cons.mp hl with ⟨ha, hl'⟩
    cases hFa : F a with
    | none => exact ih hl'
    | some b =>
      refine List.pairwise_cons.mpr ⟨?_, ih hl'⟩
      intro y hy
      obtain ⟨x, hx, hFx⟩ := List.mem_filterMap.mp hy
      rw [hF a b hFa, hF x y hFx]
      exact ha x hx

theorem analyzeForVulnerabilities_pairwise (s : SourceCounts) :
    (analyzeForVulnerabilities s).Pairwise
      (fun f g => kindIdx f.vulnType < kindIdx g.vulnType) := by
  refine pairwise_filterMap_lt _ kindIdx (fun f : Finding => kindIdx f.vulnType) ?_ kindOrder ?_
  · intro k f hk
    split at hk
    · cases hk
      rfl
    · cases hk
  · decide

theorem exploitStrategies_pairwise (s : SourceCounts) :
    (exploitStrategies s).Pairwise
      (fun a c => kindIdx a.stratType < kindIdx c.stratType) := by
  refine pairwise_filterMap_lt _ (fun f : Finding => kindIdx f.vulnType)
    (fun t : Strategy => kindIdx t.stratType) ?_ _ (analyzeForVulnerabilities_pairwise s)
  intro f t hgen
  cases hk : f.vulnType <;> rw [generateExploitStrategy, hk] at hgen <;> cases hgen <;>
    simp [hk]

/-! ## Claim theorems -/

/-- C2: for every source text, every Finding produced by the scanner and
every Strategy produced by the generators has a confidence in [5, 95]
inclusive, the per-kind deflation factors (0.8 for access control, 0.7 for
integer overflow, 0.6 for unchecked call) included. -/
theorem C2_confidence_in_range (s : SourceCounts) :
    (∀ f ∈ analyzeForVulnerabilities s, 5 ≤ f.confidence ∧ f.confidence ≤ 95) ∧
    (∀ t ∈ exploitStrategies s, 5 ≤ t.confidence ∧ t.confidence ≤ 95) := by
  have hfind : ∀ f ∈ analyzeForVulnerabilities s,
      ∃ k, f.vulnType = k ∧ 1 ≤ matchCountOf s k ∧
        f.confidence = calculateConfidence k (matchCountOf s k) (protectionCount s) := by
    intro f hf
    rw [analyzeForVulnerabilities, List.mem_filterMap] at hf
    obtain ⟨k, _, hk⟩ := hf
    split at hk
    · cases hk
      exact ⟨k, rfl, Nat.one_le_iff_ne_zero.mpr (by assumption), rfl⟩
    · cases hk
  constructor
  · intro f hf
    obtain ⟨k, _, _, hc⟩ := hfind f hf
    rw [hc]
    exact ⟨five_le_calculateConfidence _ _ _, calculateConfidence_le_95 _ _ _⟩
  · intro t ht
    rw [exploitStrategies, List.mem_filterMap] at ht
    obtain ⟨f, hf, hgen⟩ := ht
    obtain ⟨k, hfk, hm, hc⟩ := hfind f hf
    have h20 : 20 ≤ f.confidence := hc ▸ twenty_le_calculateConfidence k _ _ hm
    have h95 : f.confidence ≤ 95 := hc ▸ calculateConfidence_le_95 k _ _
    rw [generateExploitStrategy, hfk] at hgen
    cases k <;> cases hgen <;> constructor <;> nlinarith

/-- C3: whenever `ConcreteExecution.execute` reduces the generated strategy
list to a selection, the selected Strategy has maximum confidence in the list,
and on a confidence tie it is the one whose category comes first in the fixed
declaration order reentrancy, integerOverflow, accessControl, delegateCall,
uncheckedCall, priceOracle, flashLoan.  Selection is the pure function
`selectBestStrategy` of the generated list, so identical Finding sets yield
the identical selection. -/
theorem C3_selection_max_and_tiebreak (s : SourceCounts) (best : Strategy)
    (h : selectBestStrategy (exploitStrategies s) = some best) :
    best ∈ exploitStrategies s ∧
    (∀ t ∈ exploitStrategies s, t.confidence ≤ best.confidence) ∧
    (∀ t ∈ exploitStrategies s, t.confidence = best.confidence →
      kindIdx best.stratType ≤ kindIdx t.stratType) := by
  have hp := exploitStrategies_pairwise s
  rcases he : exploitStrategies s with _ | ⟨first, rest⟩
  · rw [he] at h
    cases h
  · rw [he] at h hp
    rw [selectBestStrategy] at h
    cases h
    exact ⟨reduceBest_mem first rest, le_reduceBest first rest,
      reduceBest_tiebreak first rest hp⟩

/-- C8: a source text whose only signature hit is a single delegatecall match,
with no protective signatures, yields exactly one Finding, of kind
delegatecall, severity critical and confidence 30 times 1.8 plus
min(10, 30) clipped to [5, 95], that is 64. -/
theorem C8_delegatecall_scenario (s : SourceCounts)
    (h1 : s.reentrancyMatches = 0) (h2 : s.integerOverflowMatches = 0)
    (h3 : s.accessControlMatches = 0) (h4 : s.delegateCallMatches = 1)
    (h5 : s.uncheckedCallMatches = 0) (h6 : s.priceOracleMatches = 0)
    (h7 : s.flashLoanMatches = 0) (h8 : s.requireCount = 0) (h9 : s.assertCount = 0)
    (h10 : s.revertCount = 0) (h11 : s.nonReentrantCount = 0)
    (h12 : s.safeMathCount = 0) (h13 : s.openZeppelinCount = 0) :
    analyzeForVulnerabilities s =
      [{ vulnType := .delegateCall, severity := .critical,
         description := "Dangerous delegatecall usage detected",
         matchCount := 1, confidence := 64 }] := by
  obtain ⟨f1, f2, f3, f4, f5, f6, f7, p1, p2, p3, p4, p5, p6⟩ := s
  simp only at h1 h2 h3 h4 h5 h6 h7 h8 h9 h10 h11 h12 h13
  subst h1 h2 h3 h4 h5 h6 h7 h8 h9 h10 h11 h12 h13
  with_unfolding_all decide

/-! ## Concrete instances used by the witnesses -/

/-- A source whose only signature hit is one delegatecall match. -/
def sC8 : SourceCounts := ⟨0, 0, 0, 1, 0, 0, 0, 0, 0, 0, 0, 0, 0⟩

def findingC8 : Finding :=
  { vulnType := .delegateCall, severity := .critical,
    description := "Dangerous delegatecall usage detected",
    matchCount := 1, confidence := 64 }

def stratC8 : Strategy :=
  { stratType := .delegateCall, severity := .critical, confidence := 64,
    description := "Delegatecall exploit to overwrite storage and gain control",
    estimatedProfit := "Very High" }

theorem C2_confidence_in_range_witness :
    findingC8 ∈ analyzeForVulnerabilities sC8 ∧
    5 ≤ findingC8.confidence ∧ findingC8.confidence ≤ 95 :=
  ⟨by with_unfolding_all decide,
   (C2_confidence_in_range sC8).1 findingC8 (by with_unfolding_all decide)⟩

theorem C3_selection_max_and_tiebreak_witness :
    selectBestStrategy (exploitStrategies sC8) = some stratC8 ∧
    stratC8 ∈ exploitStrategies sC8 :=
  ⟨by with_unfolding_all decide,
   (C3_selection_max_and_tiebreak sC8 stratC8 (by with_unfolding_all decide)).1⟩

theorem C8_delegatecall_scenario_witness :
    sC8.delegateCallMatches = 1 ∧ protectionCount sC8 = 0 ∧
    analyzeForVulnerabilities sC8 = [findingC8] :=
  ⟨rfl, rfl,
    C8_delegatecall_scenario sC8 rfl rfl rfl rfl rfl rfl rfl rfl rfl rfl rfl rfl rfl⟩

/-- C4 counterexample: a concrete fallback run (delegatecall strategy of
confidence 64, all three random draws 0) succeeds, yet its result does not
carry `simulated = true`; neither execution path ever writes a `simulated`
field.  The fallback marks itself through `simulationNote` instead. -/
theorem C4_counterexample :
    (simulateExploitTest stratC8 ⟨0, 0, 0⟩).success = true ∧
    (simulateExploitTest stratC8 ⟨0, 0, 0⟩).simulated ≠ some true := by
  with_unfolding_all decide

/-- C4 (amended): every result of the simulator fallback path carries the
field `simulationNote` set to the fixed simulation notice and no `simulated`
field, while every result parsed from a real Forge run carries neither field;
the two paths stay distinguishable by `simulationNote`, not by a `simulated`
boolean. -/
theorem C4_simulation_tagging (strategy : Strategy) (draws : RandomDraws)
    (stdout stderr : String) (gasMatch profitMatch : Option ℤ)
    (traceLines : List String) :
    (simulateExploitTest strategy draws).simulationNote =
      some "This is a simulated result - Forge not available" ∧
    (simulateExploitTest strategy draws).simulated = none ∧
    (parseForgeOutput stdout stderr gasMatch profitMatch traceLines).simulationNote =
      none ∧
    (parseForgeOutput stdout stderr gasMatch profitMatch traceLines).simulated = none :=
  ⟨rfl, rfl, rfl, rfl⟩

/-- C1: for every completed analysis session, a discovery record was
persisted if and only if the execution stage ran and its ExecutionResult had
`success = true`; the two early returns of `ConcreteExecution.execute` carry
`exploitFound = false` and never persist a discovery. -/
theorem C1_discovery_iff_success (env : PipelineEnv)
    (h : (startAnalysis env).status = SessionStatus.completed) :
    (startAnalysis env).discoveries ≠ [] ↔
      (∃ best result vulns,
        pipelineExecutionStage env = some (ExploitOutcome.executed best result vulns) ∧
        result.success = true) := by
  unfold startAnalysis executeAnalysisPipeline at h
  unfold startAnalysis executeAnalysisPipeline pipelineExecutionStage
  cases hp : pipelineThroughExecution env with
  | error e => simp [hp] at h
  | ok outcome =>
    cases outcome with
    | noVulnerabilities => simp [Except.toOption]
    | noStrategies vulns => simp [Except.toOption]
    | executed best result vulns =>
      cases hs : result.success with
      | false => simp [Except.toOption, hs]
      | true =>
        cases hr : env.revenue result.extractedTokens with
        | error e => simp [hp, hs, hr] at h
        | ok rev =>
          simp [Except.toOption, hs, hr]
          exact ⟨best, result, ⟨rfl, rfl⟩, hs⟩

def forgeOk0 : ForgeResult :=
  { success := true, gasUsed := 100000, profit := 1000, extractedTokens := [],
    trace := [], errorMessage := none, fullOutput := none, errors := none,
    simulated := none, simulationNote := none }

/-- A pipeline environment in which every collaborator call resolves and the
execution run succeeds. -/
def env0 : PipelineEnv :=
  { fetchSourceCode := .ok "contract Vault",
    fetchConstructorParams := .ok (),
    readContractState := .ok (),
    sanitize := fun _ => .ok sC8,
    runStrategy := fun _ => forgeOk0,
    revenue := fun _ => .ok 250000 }


theorem C1_discovery_iff_success_witness :
    (startAnalysis env0).status = SessionStatus.completed ∧
    (startAnalysis env0).discoveries ≠ [] :=
  ⟨rfl, (C1_discovery_iff_success env0 rfl).mpr ⟨_, _, _, rfl, rfl⟩⟩

/-! ## Rounding helper lemmas -/

theorem roundTo_den (n : Nat) (x : ℚ) :
    ∃ k : ℤ, roundTo n x = (k : ℚ) / 10 ^ n :=
  ⟨⌊x * 10 ^ n + 1 / 2⌋, rfl⟩

theorem roundTo_intCast_div (n : Nat) (k : ℤ) :
    roundTo n ((k : ℚ) / 10 ^ n) = (k : ℚ) / 10 ^ n := by
  unfold roundTo
  have h10 : ((10 : ℚ) ^ n) ≠ 0 := by positivity
  rw [div_mul_cancel₀ _ h10, add_comm, Int.floor_add_int]
  norm_num

theorem roundTo_eq_self (n : Nat) (x : ℚ) (h : ∃ k : ℤ, x = (k : ℚ) / 10 ^ n) :
    roundTo n x = x := by
  obtain ⟨k, rfl⟩ := h
  exact roundTo_intCast_div n k

theorem den_add (n : Nat) (x y : ℚ) (hx : ∃ k : ℤ, x = (k : ℚ) / 10 ^ n)
    (hy : ∃ k : ℤ, y = (k : ℚ) / 10 ^ n) :
    ∃ k : ℤ, x + y = (k : ℚ) / 10 ^ n := by
  obtain ⟨a, rfl⟩ := hx
  obtain ⟨b, rfl⟩ := hy
  exact ⟨a + b, by push_cast; ring⟩

theorem den_sub (n : Nat) (x y : ℚ) (hx : ∃ k : ℤ, x = (k : ℚ) / 10 ^ n)
    (hy : ∃ k : ℤ, y = (k : ℚ) / 10 ^ n) :
    ∃ k : ℤ, x - y = (k : ℚ) / 10 ^ n := by
  obtain ⟨a, rfl⟩ := hx
  obtain ⟨b, rfl⟩ := hy
  exact ⟨a - b, by push_cast; ring⟩

theorem den_zero (n : Nat) : ∃ k : ℤ, (0 : ℚ) = (k : ℚ) / 10 ^ n :=
  ⟨0, by norm_num⟩

/-! ## Structural lemmas about normalizeToken and the token loop -/

theorem normalizeToken_address (oracle : PriceOracle) (t : ExtractedToken)
    (nt : NormalizedToken) (h : normalizeToken oracle t = Except.ok nt) :
    nt.address = t.address := by
  unfold normalizeToken at h
  split at h
  · cases h
  · split at h
    · split at h
      · cases h
      · cases h
        rfl
    · split at h
      · cases h
      · cases h
        rfl

theorem normalizeToken_valueUSD_den (oracle : PriceOracle) (t : ExtractedToken)
    (nt : NormalizedToken) (h : normalizeToken oracle t = Except.ok nt) :
    ∃ k : ℤ, nt.valueUSD = (k : ℚ) / 10 ^ 2 := by
  unfold normalizeToken at h
  split at h
  · cases h
  · split at h
    · split at h
      · cases h
      · cases h
        exact roundTo_den 2 _
    · split at h
      · cases h
      · cases h
        exact roundTo_den 2 _

theorem normalizeTokenLoop_addresses (oracle : PriceOracle) (ts : List ExtractedToken) :
    (normalizeTokenLoop oracle ts).1.map (fun t => t.address) =
      ts.map (fun t => t.address) := by
  induction ts with
  | nil => rfl
  | cons token rest ih =>
    rw [normalizeTokenLoop]
    cases hn : normalizeToken oracle token with
    | ok nt => simp [normalizeToken_address oracle token nt hn, ih]
    | error e => simp [errorTokenEntry, ih]

theorem normalizeTokenLoop_totalUSD_den (oracle : PriceOracle)
    (ts : List ExtractedToken) :
    ∃ k : ℤ, (normalizeTokenLoop oracle ts).2.1 = (k : ℚ) / 10 ^ 2 := by
  induction ts with
  | nil => exact den_zero 2
  | cons token rest ih =>
    rw [normalizeTokenLoop]
    cases hn : normalizeToken oracle token with
    | ok nt =>
      simpa using den_add 2 _ _ (normalizeToken_valueUSD_den oracle token nt hn) ih
    | error e => simpa using ih

theorem calculateGasCosts_costUSD_den (gasUsed : Option Nat) (gasPrice : Option ℚ)
    (nativeTokenPrice : ℚ) :
    ∃ k : ℤ, (calculateGasCosts gasUsed gasPrice nativeTokenPrice).costUSD =
      (k : ℚ) / 10 ^ 2 := by
  unfold calculateGasCosts
  split
  · exact den_zero 2
  · exact roundTo_den 2 _

/-- C5: in every revenue normalizer output, the reported netProfitUSD equals
the reported totalValueUSD minus the reported gas cost in USD within 1e-6
(here in fact exactly: each summand is already a whole number of cents, so
the output roundings are the identity on them). -/
theorem C5_net_profit_consistency (oracle : PriceOracle) (chainId : Nat)
    (tokens : List ExtractedToken) (nativeTokenPrice : Except String ℚ)
    (gasUsed : Option Nat) (gasPrice : Option ℚ) (out : RevenueOutput)
    (h : revenueNormalizerExecute oracle chainId tokens nativeTokenPrice gasUsed gasPrice
      = Except.ok out) :
    |out.netProfitUSD - (out.totalValueUSD - out.gasCosts.costUSD)| ≤ 1 / 1000000 := by
  unfold revenueNormalizerExecute at h
  rcases hL : normalizeTokenLoop oracle tokens with ⟨l, tU, tE⟩
  rw [hL] at h
  split at h
  · cases h
  · rename_i nativePrice
    cases h
    dsimp only
    have haT : ∃ k : ℤ, tU = (k : ℚ) / 10 ^ 2 := by
      have hd := normalizeTokenLoop_totalUSD_den oracle tokens
      rw [hL] at hd
      exact hd
    have hbG := calculateGasCosts_costUSD_den gasUsed gasPrice nativePrice
    rw [roundTo_eq_self 2 _ (den_sub 2 _ _ haT hbG), roundTo_eq_self 2 _ haT]
    simp

/-- C6: in every revenue normalizer output, isProfitable holds if and only if
the reported netProfitUSD of the same record is strictly positive (the
unrounded net profit the source compares against 0 coincides with the rounded
reported figure, both being whole cents). -/
theorem C6_isProfitable_iff (oracle : PriceOracle) (chainId : Nat)
    (tokens : List ExtractedToken) (nativeTokenPrice : Except String ℚ)
    (gasUsed : Option Nat) (gasPrice : Option ℚ) (out : RevenueOutput)
    (h : revenueNormalizerExecute oracle chainId tokens nativeTokenPrice gasUsed gasPrice
      = Except.ok out) :
    out.isProfitable = true ↔ 0 < out.netProfitUSD := by
  unfold revenueNormalizerExecute at h
  rcases hL : normalizeTokenLoop oracle tokens with ⟨l, tU, tE⟩
  rw [hL] at h
  split at h
  · cases h
  · rename_i nativePrice
    cases h
    dsimp only
    have haT : ∃ k : ℤ, tU = (k : ℚ) / 10 ^ 2 := by
      have hd := normalizeTokenLoop_totalUSD_den oracle tokens
      rw [hL] at hd
      exact hd
    have hbG := calculateGasCosts_costUSD_den gasUsed gasPrice nativePrice
    rw [roundTo_eq_self 2 _ (den_sub 2 _ _ haT hbG)]
    simp [decide_eq_true_eq]

/-- C10: the normalized token list of every revenue normalizer output has
exactly the length of the input token list and preserves the input order; the
entry at each position carries the address of the input token at that
position, whether normalization succeeded or failed. -/
theorem C10_order_preservation (oracle : PriceOracle) (chainId : Nat)
    (tokens : List ExtractedToken) (nativeTokenPrice : Except String ℚ)
    (gasUsed : Option Nat) (gasPrice : Option ℚ) (out : RevenueOutput)
    (h : revenueNormalizerExecute oracle chainId tokens nativeTokenPrice gasUsed gasPrice
      = Except.ok out) :
    out.extractedTokens.map (fun t => t.address) = tokens.map (fun t => t.address) ∧
    out.extractedTokens.length = tokens.length := by
  unfold revenueNormalizerExecute at h
  rcases hL : normalizeTokenLoop oracle tokens with ⟨l, tU, tE⟩
  rw [hL] at h
  split at h
  · cases h
  · cases h
    dsimp only
    have hA := normalizeTokenLoop_addresses oracle tokens
    rw [hL] at hA
    refine ⟨hA, ?_⟩
    have := congrArg List.length hA
    simpa using this

/-! ## Concrete revenue normalizer instances used by witnesses and
counterexamples -/

/-- A price oracle that fails for address 0xB and prices every other token at
one dollar with a 500000 dollar pool. -/
def oracleC9 : PriceOracle :=
  { getTokenMetadata := fun a =>
      if a = "0xB" then Except.error "metadata lookup failed"
      else Except.ok { symbol := some "TKN", decimals := some 18 }
    getTokenPrice := fun a =>
      if a = "0xB" then Except.error "price lookup failed"
      else Except.ok { priceUSD := 1, priceETH := 0.0005, liquidityUSD := 500000,
                       priceImpact := 0.01, sources := ["dex"], confidence := 70 } }

/-- One raw base unit (10 to the minus 18 tokens) of a one dollar token. -/
def tokenC9A : ExtractedToken :=
  { address := "0xA", amount := 1, symbol := some "TKN", decimals := some 18 }

/-- A token whose metadata lookup throws. -/
def tokenC9B : ExtractedToken :=
  { address := "0xB", amount := 5, symbol := none, decimals := none }

/-- One whole one dollar token. -/
def tokenC9C : ExtractedToken :=
  { address := "0xA", amount := 10 ^ 18, symbol := some "TKN", decimals := some 18 }

/-- The normalized form of `tokenC9C` under `oracleC9`. -/
def ntC9C : NormalizedToken :=
  { address := "0xA", symbol := some "TKN", decimals := some 18, amount := 10 ^ 18,
    amountDecimal := some 1, priceUSD := 1, priceETH := 0.0005, valueUSD := 1,
    valueETH := 0.0005, liquidity := "medium", liquidityUSD := some 500000,
    priceImpact := some 0.01, sources := some ["dex"], confidence := some 70,
    error := none }

/-- Output of the revenue normalizer on an empty token list at native price
2000 with no gas inputs. -/
def outEmpty : RevenueOutput :=
  { chainId := 1, nativeTokenPrice := 2000, extractedTokens := [],
    totalValueUSD := 0, totalValueETH := 0,
    gasCosts := { gasUsed := 0, gasPrice := 0, costETH := 0, costUSD := 0,
                  estimated := true },
    netProfitUSD := 0, netProfitETH := 0, isProfitable := false,
    profitabilityRatio := 0,
    marketData := { totalLiquidity := 0, averagePriceImpact := 0,
                    highLiquidityCount := 0, riskTokens := 0 },
    summary := { totalTokens := 0, successfulNormalizations := 0,
                 highLiquidityTokens := 0, riskLevel := "high" } }

theorem C5_net_profit_consistency_witness :
    revenueNormalizerExecute oracleC9 1 [] (Except.ok 2000) none none =
      Except.ok outEmpty ∧
    |outEmpty.netProfitUSD - (outEmpty.totalValueUSD - outEmpty.gasCosts.costUSD)| ≤
      1 / 1000000 :=
  ⟨by with_unfolding_all rfl,
   C5_net_profit_consistency oracleC9 1 [] (Except.ok 2000) none none outEmpty
     (by with_unfolding_all rfl)⟩

theorem C6_isProfitable_iff_witness :
    revenueNormalizerExecute oracleC9 1 [] (Except.ok 2000) none none =
      Except.ok outEmpty ∧
    (outEmpty.isProfitable = true ↔ 0 < outEmpty.netProfitUSD) :=
  ⟨by with_unfolding_all rfl,
   C6_isProfitable_iff oracleC9 1 [] (Except.ok 2000) none none outEmpty
     (by with_unfolding_all rfl)⟩

/-- Output of the revenue normalizer on `[tokenC9C, tokenC9B]` under
`oracleC9` at native price 2000 with no gas inputs. -/
def outC9 : RevenueOutput :=
  { chainId := 1, nativeTokenPrice := 2000,
    extractedTokens := [ntC9C, errorTokenEntry tokenC9B "metadata lookup failed"],
    totalValueUSD := 1, totalValueETH := 0.0005,
    gasCosts := { gasUsed := 0, gasPrice := 0, costETH := 0, costUSD := 0,
                  estimated := true },
    netProfitUSD := 1, netProfitETH := 0.0005, isProfitable := true,
    profitabilityRatio := 1,
    marketData := { totalLiquidity := 500000, averagePriceImpact := 0.005,
                    highLiquidityCount := 0, riskTokens := 0 },
    summary := { totalTokens := 2, successfulNormalizations := 1,
                 highLiquidityTokens := 0, riskLevel := "very-high" } }

theorem C10_order_preservation_witness :
    revenueNormalizerExecute oracleC9 1 [tokenC9C, tokenC9B] (Except.ok 2000) none none =
      Except.ok outC9 ∧
    outC9.extractedTokens.map (fun t => t.address) =
      [tokenC9C, tokenC9B].map (fun t => t.address) ∧
    outC9.extractedTokens.length = [tokenC9C, tokenC9B].length :=
  ⟨by with_unfolding_all rfl,
   C10_order_preservation oracleC9 1 [tokenC9C, tokenC9B] (Except.ok 2000) none none
     outC9 (by with_unfolding_all rfl)⟩

/-! ## C7: risk scoring -/

/-- Comparison point for C7, following the wording of the claim: 2 per
low-liquidity token, 3 per high-impact token, 4 per token with an error
present, plus the profit penalties. -/
def specRiskScore (tokens : List NormalizedToken) (netProfitUSD : ℚ) : Nat :=
  2 * tokens.countP (fun t => t.liquidity = "low" || t.liquidity = "very-low") +
  3 * tokens.countP (fun t => decide ((0.05 : ℚ) < t.priceImpact.getD 0)) +
  4 * tokens.countP (fun t => t.error.isSome) +
  (if netProfitUSD < 1000 then 2 else 0) +
  (if netProfitUSD < 100 then 3 else 0)

/-- Risk level mapping of the claim applied to `specRiskScore`. -/
def specRiskLevel (tokens : List NormalizedToken) (netProfitUSD : ℚ) : String :=
  if 8 ≤ specRiskScore tokens netProfitUSD then "very-high"
  else if 5 ≤ specRiskScore tokens netProfitUSD then "high"
  else if 2 ≤ specRiskScore tokens netProfitUSD then "medium"
  else "low"

/-- A successfully normalized token with no error attached but no symbol
resolved: high liquidity, zero price impact. -/
def tokenNoSymbol : NormalizedToken :=
  { address := "0xC", symbol := none, decimals := some 18, amount := 0,
    amountDecimal := some 0, priceUSD := 0, priceETH := 0, valueUSD := 0,
    valueETH := 0, liquidity := "high", liquidityUSD := some 2000000,
    priceImpact := some 0, sources := some [], confidence := some 0,
    error := none }

/-- C7 counterexample: a token with no error attached does contribute to the
4 times term when its symbol is missing — on one such token with net profit
5000 the source computes risk "medium" while the formula of the claim yields
"low". -/
theorem C7_counterexample :
    assessRiskLevel [tokenNoSymbol] 5000 = "medium" ∧
    specRiskLevel [tokenNoSymbol] 5000 = "low" ∧
    tokenNoSymbol.error = none := by
  with_unfolding_all decide

/-- The risk formula as the source computes it, in the arithmetic shape of
the claim: the amendment is that the 4 times term counts tokens with an error
present or with a missing or empty symbol (JavaScript truthiness of
`t.error || !t.symbol`). -/
def amendedRiskLevel (tokens : List NormalizedToken) (netProfitUSD : ℚ) : String :=
  let score :=
    2 * tokens.countP (fun t => t.liquidity = "very-low" || t.liquidity = "low") +
    3 * tokens.countP (fun t => impactAboveThreshold t.priceImpact) +
    4 * tokens.countP (fun t => strTruthy t.error || !strTruthy t.symbol) +
    (if netProfitUSD < 1000 then 2 else 0) +
    (if netProfitUSD < 100 then 3 else 0)
  if 8 ≤ score then "very-high"
  else if 5 ≤ score then "high"
  else if 2 ≤ score then "medium"
  else "low"

/-- C7 (amended): for every token list and net profit, the composite risk
score is 2 times the count of low or very-low liquidity tokens plus 3 times
the count of tokens with price impact above 0.05 plus 4 times the count of
tokens with an error present or a missing or empty symbol, plus 2 when the
net profit is below 1000 and 3 more when below 100; the level is very-high
from 8, high from 5, medium from 2, low otherwise. -/
theorem C7_risk_scoring (tokens : List NormalizedToken) (netProfitUSD : ℚ) :
    assessRiskLevel tokens netProfitUSD = amendedRiskLevel tokens netProfitUSD := by
  unfold assessRiskLevel amendedRiskLevel
  simp only [List.countP_eq_length_filter]
  have e : ∀ a b c p q : ℕ, a * 2 + b * 3 + c * 4 + p + q = 2 * a + 3 * b + 4 * c + p + q := by
    intro a b c p q
    ring
  rw [e]

/-! ## C9: per-token failure isolation -/

/-- C9 counterexample: the first token normalizes with a strictly positive
price (one dollar) while the second throws, yet entry 1 of the output has
`valueUSD = 0` — its unrounded value of 10 to the minus 18 dollars rounds to
zero cents.  A positive price alone does not make the reported valueUSD
nonzero. -/
theorem C9_counterexample :
    (normalizeToken oracleC9 tokenC9A).map (fun nt => (nt.priceUSD, nt.valueUSD)) =
      Except.ok (1, 0) ∧
    normalizeToken oracleC9 tokenC9B = Except.error "metadata lookup failed" ∧
    (revenueNormalizerExecute oracleC9 1 [tokenC9A, tokenC9B] (Except.ok 2000) none
        none).map
      (fun out => out.extractedTokens.map (fun t => (t.valueUSD, t.liquidity,
        t.error.isSome))) =
      Except.ok [(0, "medium", false), (0, "unknown", true)] := by
  refine ⟨?_, ?_, ?_⟩ <;> with_unfolding_all rfl

/-- C9 (amended): for two extracted tokens of which the first normalizes and
the second throws, the output list has exactly two entries in order: entry 1
is the normalized first token — its valueUSD nonzero provided the rounded
value is nonzero, which a positive price alone does not guarantee — and entry
2 records the second token with zero value, liquidity "unknown" and the
thrown message attached; the failure of the second token does not abort or
alter the first. -/
theorem C9_failure_isolation (oracle : PriceOracle) (chainId : Nat)
    (nativePrice : ℚ) (gasUsed : Option Nat) (gasPrice : Option ℚ)
    (t1 t2 : ExtractedToken) (nt1 : NormalizedToken) (msg : String)
    (h1 : normalizeToken oracle t1 = Except.ok nt1)
    (h2 : normalizeToken oracle t2 = Except.error msg)
    (hv : nt1.valueUSD ≠ 0) :
    (revenueNormalizerExecute oracle chainId [t1, t2] (Except.ok nativePrice)
        gasUsed gasPrice).map (fun out => out.extractedTokens) =
      Except.ok [nt1, errorTokenEntry t2 msg] ∧
    nt1.valueUSD ≠ 0 ∧
    (errorTokenEntry t2 msg).valueUSD = 0 ∧
    (errorTokenEntry t2 msg).liquidity = "unknown" ∧
    (errorTokenEntry t2 msg).error = some msg := by
  refine ⟨?_, hv, rfl, rfl, rfl⟩
  unfold revenueNormalizerExecute
  simp [normalizeTokenLoop, h1, h2, Except.map]

theorem C9_failure_isolation_witness :
    (revenueNormalizerExecute oracleC9 1 [tokenC9C, tokenC9B] (Except.ok 2000)
        none none).map (fun out => out.extractedTokens) =
      Except.ok [ntC9C, errorTokenEntry tokenC9B "metadata lookup failed"] ∧
    ntC9C.valueUSD ≠ 0 ∧
    (errorTokenEntry tokenC9B "metadata lookup failed").valueUSD = 0 ∧
    (errorTokenEntry tokenC9B "metadata lookup failed").liquidity = "unknown" ∧
    (errorTokenEntry tokenC9B "metadata lookup failed").error =
      some "metadata lookup failed" :=
  C9_failure_isolation oracleC9 1 2000 none none tokenC9C tokenC9B ntC9C
    "metadata lookup failed" (by with_unfolding_all rfl)
    (by with_unfolding_all rfl) (by with_unfolding_all decide)
